import Mathlib

/-!
Verification of the TikTok video downloader service (Next.js route handlers).

The development shallowly embeds the two request handlers of
`src/app/api/download/tiktok/route.ts` (the POST "Resolver" and the GET
"Relay") and the client-side validator of `src/app/page.tsx` as pure Lean
functions, and proves the specification claims about them.

Network effects are modelled explicitly: each handler takes the (mocked)
upstream HTTP result as an argument, and its outcome records whether an
outbound fetch would have been issued (and to which URL), together with any
diagnostic value logged via console.error on the failure path.
-/

namespace TikTokDL

/-! ## JavaScript regular-expression semantics for the TikTok URL pattern

Both the server (route.ts line 56) and the client (page.tsx line 39) test
candidate URLs with the literal regex

  /^(https?:\/\/)?(www\.)?(tiktok\.com|vm\.tiktok\.com)\/.+/

via `RegExp.prototype.test`.  The regex is anchored at the start only, so
`test` succeeds iff some prefix of the string matches.  In JavaScript the
dot metacharacter matches every character except the four line terminators
LF, CR, U+2028 and U+2029. -/

/-- The four JavaScript line terminators, which the regex dot does not match. -/
def isLineTerm (c : Char) : Bool :=
  c = '\n' || c = '\r' || c = Char.ofNat 0x2028 || c = Char.ofNat 0x2029

/-- Drop the literal pattern `p` from the front of `s`; `none` when `s` does
not start with `p`. -/
def dropPfx : List Char → List Char → Option (List Char)
  | [], s => some s
  | _ :: _, [] => none
  | c :: p, d :: s => if c = d then dropPfx p s else none

/-- Remainders reachable after the optional group `(https?:\/\/)?`:
either consume nothing, or consume one of the two scheme spellings. -/
def schemeCands (cs : List Char) : List (List Char) :=
  [cs] ++ (dropPfx "http://".data cs).toList ++ (dropPfx "https://".data cs).toList

/-- Remainders reachable after the optional group `(www\.)?`. -/
def wwwCands (r : List Char) : List (List Char) :=
  [r] ++ (dropPfx "www.".data r).toList

/-- Match the tail `<host>/` followed by `.+`: the remainder must start with
the literal `h` (host plus slash) and then at least one character matched by
the dot, i.e. a character that is not a line terminator. -/
def hostTail (h r : List Char) : Bool :=
  match dropPfx h r with
  | some (c :: _) => !(isLineTerm c)
  | _ => false

/-- `tiktokRegex.test url` of route.ts line 56 and page.tsx line 39: the
anchored-at-start match of the TikTok URL regex. -/
def tiktokRegexTest (s : String) : Bool :=
  (schemeCands s.data).any fun r1 =>
    (wwwCands r1).any fun r2 =>
      hostTail "tiktok.com/".data r2 || hostTail "vm.tiktok.com/".data r2

/-- Modelled from the spec (section 4.1, the claim C2 pattern read literally):
the candidate decomposes into an optional scheme, an optional `www.`, a host
equal to `tiktok.com` or `vm.tiktok.com`, a slash, and at least one more
character, with no restriction on which character follows the slash. -/
def MatchesTikTokSpec (s : String) : Prop :=
  ∃ (sch www host : String) (rest : List Char),
    (sch = "" ∨ sch = "http://" ∨ sch = "https://") ∧
    (www = "" ∨ www = "www.") ∧
    (host = "tiktok.com" ∨ host = "vm.tiktok.com") ∧
    rest ≠ [] ∧
    s.data = sch.data ++ (www.data ++ (host.data ++ ('/' :: rest)))

/-- The pattern that the source regex actually decides: as `MatchesTikTokSpec`,
except that the first character after the slash must not be a line
terminator, reflecting the JavaScript dot. -/
def MatchesTikTokAmended (s : String) : Prop :=
  ∃ (sch www host : String) (c : Char) (rest : List Char),
    (sch = "" ∨ sch = "http://" ∨ sch = "https://") ∧
    (www = "" ∨ www = "www.") ∧
    (host = "tiktok.com" ∨ host = "vm.tiktok.com") ∧
    isLineTerm c = false ∧
    s.data = sch.data ++ (www.data ++ (host.data ++ ('/' :: c :: rest)))

/-! ## Client-side validator (page.tsx, `validateUrl`)

The client first rejects when `url.trim()` is empty, then applies the same
regex as the server.  JavaScript `String.prototype.trim` removes white space
and line terminators from both ends. -/

/-- Characters removed by the JavaScript `trim`: WhiteSpace (tab, VT, FF,
space, NBSP, BOM and the Unicode space separators) plus the four line
terminators. -/
def isJsWhitespace (c : Char) : Bool :=
  c.val = 0x9 || c.val = 0xA || c.val = 0xB || c.val = 0xC || c.val = 0xD ||
  c.val = 0x20 || c.val = 0xA0 || c.val = 0x1680 ||
  (0x2000 ≤ c.val && c.val ≤ 0x200A) ||
  c.val = 0x2028 || c.val = 0x2029 || c.val = 0x202F || c.val = 0x205F ||
  c.val = 0x3000 || c.val = 0xFEFF

/-- JavaScript `String.prototype.trim`. -/
def jsTrim (s : String) : String :=
  String.mk (((s.data.dropWhile isJsWhitespace).reverse.dropWhile isJsWhitespace).reverse)

/-- The boolean result of `validateUrl` in page.tsx lines 33 to 47 (the error
message it stores in React state is not modelled): false when the trimmed
URL is empty, false when the regex rejects, true otherwise. -/
def validateUrl (url : String) : Bool :=
  if jsTrim url = "" then false
  else if !(tiktokRegexTest url) then false
  else true

/-! ## Data model of the Resolver (route.ts POST handler)

The TypeScript interfaces `TikWMResponse` and `TikTokDownloadResponse` are
embedded as structures.  The upstream `data.author` object is given an
`Option` type even though the static interface marks it required: the claims
quantify over runtime JSON values, where the nested object may be absent
(JavaScript performs no runtime check), and the handler then throws a
TypeError when reading `.nickname`. -/

/-- Nested author object of the upstream TikWM envelope. -/
structure TikWMAuthor where
  nickname : String
  unique_id : String
deriving Repr, DecidableEq

/-- The `data` object of the upstream TikWM envelope. -/
structure TikWMData where
  id : String
  title : String
  cover : String
  author : Option TikWMAuthor
  play : String
  wmplay : String
  music : String
deriving Repr, DecidableEq

/-- The upstream TikWM JSON envelope `{ code, msg, data? }`. -/
structure TikWMResponse where
  code : Int
  msg : String
  data : Option TikWMData
deriving Repr, DecidableEq

/-- The transport-level result of the metadata fetch: `ok` is
`Response.ok` (status in the 2xx range) and `body` the parsed JSON envelope. -/
structure UpstreamHttp where
  ok : Bool
  body : TikWMResponse
deriving Repr, DecidableEq

/-- The `data` object of a successful Resolver response
(interface `TikTokDownloadResponse.data`). -/
structure ResolvedMedia where
  title : String
  thumbnail : String
  author : Option String
  description : Option String
  downloadUrl : Option String
  noWatermarkUrl : Option String
deriving Repr, DecidableEq

/-- A successful Resolver response body (interface `TikTokDownloadResponse`). -/
structure TikTokDownloadResponse where
  success : Bool
  message : String
  data : Option ResolvedMedia
deriving Repr, DecidableEq

/-- The JSON response emitted by the POST handler: an error body
`{ error }` with a status code, an error body `{ error, details }` produced
by the catch-all boundary, or a 200 response with a
`TikTokDownloadResponse` body. -/
inductive PostResponse where
  | jsonError (status : Nat) (error : String)
  | jsonErrorDetails (status : Nat) (error : String) (details : String)
  | jsonOk (body : TikTokDownloadResponse)
deriving Repr, DecidableEq

/-- HTTP status of a POST response (`NextResponse.json` defaults to 200). -/
def PostResponse.status : PostResponse → Nat
  | .jsonError st _ => st
  | .jsonErrorDetails st _ _ => st
  | .jsonOk _ => 200

/-- Whether the response JSON carries a `data` field. -/
def PostResponse.hasData : PostResponse → Bool
  | .jsonOk b => b.data.isSome
  | _ => false

/-- Whether the response is a success response (a 200 body with
`success: true`). -/
def PostResponse.isSuccess : PostResponse → Bool
  | .jsonOk b => b.success
  | _ => false

/-- The `data.title` field of the response, when present. -/
def PostResponse.dataTitle : PostResponse → Option String
  | .jsonOk b => b.data.map ResolvedMedia.title
  | _ => none

/-- The diagnostic detail produced when `data.author.nickname` is read while
`data.author` is undefined at runtime: the thrown TypeError message, as
surfaced by the catch-all boundary of the handler. -/
def authorTypeErrorMsg : String :=
  "Cannot read properties of undefined (reading nickname)"

/-- The POST handler of route.ts lines 41 to 113.  `url?` is the `url` field
of the request body (`none` when missing); `up` is the mocked transport
result of the TikWM fetch.  The second component records whether the
outbound fetch to the TikWM API was issued. -/
def POST (url? : Option String) (up : UpstreamHttp) : PostResponse × Bool :=
  match url? with
  | none => (.jsonError 400 "URL é obrigatória", false)
  | some url =>
    if url = "" then
      (.jsonError 400 "URL é obrigatória", false)
    else if !(tiktokRegexTest url) then
      (.jsonError 400 "URL inválida do TikTok", false)
    else
      let tikwmData := up.body
      if !up.ok || tikwmData.code != 0 then
        (.jsonError 500
          "Erro ao obter informações do vídeo do TikTok. Verifique se o link está correto.",
          true)
      else
        match tikwmData.data with
        | none =>
          (.jsonError 500
            "Erro ao obter informações do vídeo do TikTok. Verifique se o link está correto.",
            true)
        | some data =>
          match data.author with
          | none =>
            (.jsonErrorDetails 500 "Erro ao processar o vídeo" authorTypeErrorMsg, true)
          | some a =>
            (.jsonOk
              { success := true
                message := "Vídeo obtido com sucesso"
                data := some
                  { title := if data.title = "" then "TikTok Video" else data.title
                    thumbnail := data.cover
                    author := some a.nickname
                    description := some data.title
                    downloadUrl := some data.play
                    noWatermarkUrl := some data.wmplay } },
              true)

/-! ## The Relay (route.ts GET handler) -/

/-- The transport-level result of the media fetch: `ok` is `Response.ok`,
`status` the HTTP status code, `body` the raw bytes of the media. -/
structure MediaUpstream where
  ok : Bool
  status : Nat
  body : List Nat
deriving Repr, DecidableEq

/-- The headers attached to a successful Relay response. -/
structure VideoHeaders where
  contentType : String
  contentDisposition : String
  contentLength : String
  cacheControl : String
deriving Repr, DecidableEq

/-- The response emitted by the GET handler: a JSON error body with a status
code, or a 200 binary response carrying the video bytes and headers. -/
inductive GetResponse where
  | jsonError (status : Nat) (error : String)
  | video (status : Nat) (body : List Nat) (headers : VideoHeaders)
deriving Repr, DecidableEq

/-- Full outcome of a GET invocation: the response, the URL of the outbound
fetch that was issued (`none` when no fetch happened), and the upstream
status code logged via `console.error` on the transport-failure path. -/
structure GetOutcome where
  response : GetResponse
  fetched : Option String
  loggedStatus : Option Nat
deriving Repr, DecidableEq

/-- The GET handler of route.ts lines 119 to 162.  `url?` and `fname?` are
the `url` and `filename` query parameters (`searchParams.get` yields `none`
when the parameter is absent); `up` is the mocked transport result of the
media fetch. -/
def GET (url? : Option String) (fname? : Option String) (up : MediaUpstream) : GetOutcome :=
  let filename :=
    match fname? with
    | none => "tiktok_video.mp4"
    | some f => if f = "" then "tiktok_video.mp4" else f
  match url? with
  | none => ⟨.jsonError 400 "URL do vídeo é obrigatória", none, none⟩
  | some videoUrl =>
    if videoUrl = "" then
      ⟨.jsonError 400 "URL do vídeo é obrigatória", none, none⟩
    else if !up.ok then
      ⟨.jsonError 500 "Falha ao baixar o vídeo do servidor do TikTok",
        some videoUrl, some up.status⟩
    else
      ⟨.video 200 up.body
        { contentType := "video/mp4"
          contentDisposition := "attachment; filename=\"" ++ filename ++ "\""
          contentLength := toString up.body.length
          cacheControl := "public, max-age=3600" },
        some videoUrl, none⟩

/-- The client-side filename sanitizer of page.tsx line 89:
`filename.replace(/[^a-z0-9]/gi, "_")` replaces every character that is not
an ASCII letter or digit with an underscore. -/
def sanitizeFilename (s : String) : String :=
  String.mk (s.data.map fun c =>
    if ('a' ≤ c && c ≤ 'z') || ('A' ≤ c && c ≤ 'Z') || ('0' ≤ c && c ≤ '9') then c
    else '_')

/-! ## Proofs -/

theorem dropPfx_eq_some : ∀ (p s r : List Char), dropPfx p s = some r ↔ s = p ++ r
  | [], s, r => by simp [dropPfx]
  | c :: p, [], r => by simp [dropPfx]
  | c :: p, d :: s, r => by
    simp only [dropPfx, List.cons_append]
    by_cases h : c = d
    · subst h
      simp [dropPfx_eq_some p s r]
    · simp only [if_neg h]
      constructor
      · intro hc
        exact Option.noConfusion hc
      · intro hc
        obtain ⟨h1, -⟩ := List.cons.inj hc
        exact absurd h1.symm h

theorem hostTail_iff (h r : List Char) :
    hostTail h r = true ↔ ∃ c rest, r = h ++ c :: rest ∧ isLineTerm c = false := by
  unfold hostTail
  cases hd : dropPfx h r with
  | none =>
    simp only [Bool.false_eq_true, false_iff]
    rintro ⟨c, rest, hr, -⟩
    rw [← dropPfx_eq_some h r (c :: rest)] at hr
    rw [hd] at hr
    exact Option.noConfusion hr
  | some t =>
    rw [dropPfx_eq_some] at hd
    cases t with
    | nil =>
      simp only [Bool.false_eq_true, false_iff]
      rintro ⟨c, rest, hr, -⟩
      rw [hd] at hr
      have := List.append_cancel_left hr
      exact List.noConfusion this
    | cons c rest =>
      simp only [Bool.not_eq_eq_eq_not, Bool.not_true]
      constructor
      · intro hc
        exact ⟨c, rest, hd, hc⟩
      · rintro ⟨c', rest', hr, hc'⟩
        rw [hd] at hr
        have := List.append_cancel_left hr
        obtain ⟨rfl, -⟩ := List.cons.inj this
        exact hc'

theorem mem_schemeCands (cs r : List Char) :
    r ∈ schemeCands cs ↔
      ∃ sch : String, (sch = "" ∨ sch = "http://" ∨ sch = "https://") ∧
        cs = sch.data ++ r := by
  unfold schemeCands
  simp only [List.mem_append, List.mem_singleton, Option.mem_toList, Option.mem_def,
    dropPfx_eq_some]
  constructor
  · rintro ((rfl | h) | h)
    · exact ⟨"", Or.inl rfl, by simp⟩
    · exact ⟨"http://", Or.inr (Or.inl rfl), h⟩
    · exact ⟨"https://", Or.inr (Or.inr rfl), h⟩
  · rintro ⟨sch, (rfl | rfl | rfl), h⟩
    · exact Or.inl (Or.inl (by simpa using h.symm))
    · exact Or.inl (Or.inr h)
    · exact Or.inr h

theorem mem_wwwCands (cs r : List Char) :
    r ∈ wwwCands cs ↔
      ∃ www : String, (www = "" ∨ www = "www.") ∧ cs = www.data ++ r := by
  unfold wwwCands
  simp only [List.mem_append, List.mem_singleton, Option.mem_toList, Option.mem_def,
    dropPfx_eq_some]
  constructor
  · rintro (rfl | h)
    · exact ⟨"", Or.inl rfl, by simp⟩
    · exact ⟨"www.", Or.inr rfl, h⟩
  · rintro ⟨www, (rfl | rfl), h⟩
    · exact Or.inl (by simpa using h.symm)
    · exact Or.inr h

theorem hostSlash_tiktok : "tiktok.com/".data = "tiktok.com".data ++ ['/'] := by decide

theorem hostSlash_vm : "vm.tiktok.com/".data = "vm.tiktok.com".data ++ ['/'] := by decide

theorem tiktokRegexTest_iff_matches (s : String) :
    tiktokRegexTest s = true ↔ MatchesTikTokAmended s := by
  unfold tiktokRegexTest
  rw [List.any_eq_true]
  constructor
  · rintro ⟨r1, hr1, hin⟩
    simp only [List.any_eq_true, Bool.or_eq_true] at hin
    obtain ⟨r2, hr2, hhost⟩ := hin
    rw [mem_schemeCands] at hr1
    rw [mem_wwwCands] at hr2
    obtain ⟨sch, hsch, hcs⟩ := hr1
    obtain ⟨www, hwww, hr1eq⟩ := hr2
    have hdec : ∃ host : String, (host = "tiktok.com" ∨ host = "vm.tiktok.com") ∧
        ∃ c rest, r2 = host.data ++ ('/' :: c :: rest) ∧ isLineTerm c = false := by
      rcases hhost with hh | hh
      · rw [hostTail_iff] at hh
        obtain ⟨c, rest, hr, hc⟩ := hh
        refine ⟨"tiktok.com", Or.inl rfl, c, rest, ?_, hc⟩
        rw [hr]
        rfl
      · rw [hostTail_iff] at hh
        obtain ⟨c, rest, hr, hc⟩ := hh
        refine ⟨"vm.tiktok.com", Or.inr rfl, c, rest, ?_, hc⟩
        rw [hr]
        rfl
    obtain ⟨host, hhost', c, rest, hr2eq, hc⟩ := hdec
    exact ⟨sch, www, host, c, rest, hsch, hwww, hhost', hc, by
      rw [hcs, hr1eq, hr2eq]⟩
  · rintro ⟨sch, www, host, c, rest, hsch, hwww, hhost, hc, hs⟩
    refine ⟨www.data ++ (host.data ++ ('/' :: c :: rest)), ?_, ?_⟩
    · rw [mem_schemeCands]
      exact ⟨sch, hsch, hs⟩
    · rw [List.any_eq_true]
      refine ⟨host.data ++ ('/' :: c :: rest), ?_, ?_⟩
      · rw [mem_wwwCands]
        exact ⟨www, hwww, rfl⟩
      · simp only [Bool.or_eq_true]
        rcases hhost with rfl | rfl
        · exact Or.inl ((hostTail_iff _ _).mpr ⟨c, rest, rfl, hc⟩)
        · exact Or.inr ((hostTail_iff _ _).mpr ⟨c, rest, rfl, hc⟩)

theorem regexTest_empty : tiktokRegexTest "" = false := by decide

theorem regexTest_ne_empty {s : String} (h : tiktokRegexTest s = true) : s ≠ "" := by
  rintro rfl
  rw [regexTest_empty] at h
  exact Bool.noConfusion h

theorem slash_mem_of_regexTest {s : String} (h : tiktokRegexTest s = true) : '/' ∈ s.data := by
  obtain ⟨sch, www, host, c, rest, -, -, -, -, hs⟩ := (tiktokRegexTest_iff_matches s).mp h
  rw [hs]
  simp [List.mem_append]

theorem jsTrim_eq_empty_all_ws {s : String} (h : jsTrim s = "") :
    ∀ c ∈ s.data, isJsWhitespace c = true := by
  have hl : ((s.data.dropWhile isJsWhitespace).reverse.dropWhile isJsWhitespace).reverse
      = [] := by
    have := congrArg String.data h
    simpa [jsTrim] using this
  rw [List.reverse_eq_nil_iff, List.dropWhile_eq_nil_iff] at hl
  intro c hc
  by_cases hw : isJsWhitespace c = true
  · exact hw
  · exfalso
    rw [← List.takeWhile_append_dropWhile (p := isJsWhitespace) (l := s.data)] at hc
    rcases List.mem_append.mp hc with h1 | h1
    · exact hw (List.mem_takeWhile_imp h1)
    · exact hw (hl c (List.mem_reverse.mpr h1))

theorem validateUrl_eq_tiktokRegexTest (s : String) : validateUrl s = tiktokRegexTest s := by
  unfold validateUrl
  by_cases h : jsTrim s = ""
  · rw [if_pos h]
    cases hr : tiktokRegexTest s with
    | false => rfl
    | true =>
      exfalso
      have := jsTrim_eq_empty_all_ws h _ (slash_mem_of_regexTest hr)
      exact absurd this (by decide)
  · rw [if_neg h]
    cases hr : tiktokRegexTest s with
    | false => simp
    | true => simp

/-! ## The claims -/

/-- C1: for every upstream envelope with `code = 0` and a fully populated
`data` object (author present, nonempty title), the POST Resolver returns a
success response mapping `cover` to `thumbnail`, `title` to both `title` and
`description`, `author.nickname` to `author`, `play` to `downloadUrl`, and
`wmplay` to `noWatermarkUrl`, with `success = true`. -/
theorem C1_resolver_success_mapping (url : String) (up : UpstreamHttp)
    (d : TikWMData) (a : TikWMAuthor)
    (hurl : tiktokRegexTest url = true) (hok : up.ok = true)
    (hcode : up.body.code = 0) (hdata : up.body.data = some d)
    (hauthor : d.author = some a) (htitle : d.title ≠ "") :
    POST (some url) up =
      (.jsonOk
        { success := true
          message := "Vídeo obtido com sucesso"
          data := some
            { title := d.title
              thumbnail := d.cover
              author := some a.nickname
              description := some d.title
              downloadUrl := some d.play
              noWatermarkUrl := some d.wmplay } },
        true) := by
  have hne := regexTest_ne_empty hurl
  simp [POST, hne, hurl, hok, hcode, hdata, hauthor, htitle]

/-- Witness for C1 at the specification example input. -/
theorem C1_witness :
    POST (some "https://www.tiktok.com/@demo/video/123")
        ⟨true, ⟨0, "success", some ⟨"123", "Funny Cat", "http://x/thumb.jpg",
          some ⟨"DemoUser", "demo"⟩, "http://x/wm.mp4", "http://x/nowm.mp4", "m"⟩⟩⟩ =
      (.jsonOk
        { success := true
          message := "Vídeo obtido com sucesso"
          data := some
            { title := "Funny Cat"
              thumbnail := "http://x/thumb.jpg"
              author := some "DemoUser"
              description := some "Funny Cat"
              downloadUrl := some "http://x/wm.mp4"
              noWatermarkUrl := some "http://x/nowm.mp4" } },
        true) :=
  C1_resolver_success_mapping "https://www.tiktok.com/@demo/video/123"
    ⟨true, ⟨0, "success", some ⟨"123", "Funny Cat", "http://x/thumb.jpg",
      some ⟨"DemoUser", "demo"⟩, "http://x/wm.mp4", "http://x/nowm.mp4", "m"⟩⟩⟩
    ⟨"123", "Funny Cat", "http://x/thumb.jpg", some ⟨"DemoUser", "demo"⟩,
      "http://x/wm.mp4", "http://x/nowm.mp4", "m"⟩
    ⟨"DemoUser", "demo"⟩
    (by decide) rfl rfl rfl rfl (by decide)

/-- C2 counterexample: the regex of the source does not accept
`"tiktok.com/\n"`, although that string consists of the host, a slash and
one more character; the claimed equivalence with the literal spec pattern
fails at this input. -/
theorem C2_counterexample :
    ¬ (tiktokRegexTest "tiktok.com/\n" = true ↔ MatchesTikTokSpec "tiktok.com/\n") := by
  intro h
  have hm : MatchesTikTokSpec "tiktok.com/\n" :=
    ⟨"", "", "tiktok.com", ['\n'], Or.inl rfl, Or.inl rfl, Or.inl rfl,
      by decide, by decide⟩
  have ht := h.mpr hm
  have hf : tiktokRegexTest "tiktok.com/\n" = false := by decide
  rw [hf] at ht
  exact Bool.noConfusion ht

/-- C2 (amended): the URL validator returns true iff the candidate matches
optional scheme, optional `www.`, host `tiktok.com` or `vm.tiktok.com`,
a slash, and at least one more character that is not a line terminator; and
the client-side `validateUrl` agrees with the server-side regex test on
every string (the POST handler applies `tiktokRegexTest` by definition). -/
theorem C2_validator (s : String) :
    (tiktokRegexTest s = true ↔ MatchesTikTokAmended s) ∧
    validateUrl s = tiktokRegexTest s :=
  ⟨tiktokRegexTest_iff_matches s, validateUrl_eq_tiktokRegexTest s⟩

/-- C3: for every request whose url is missing, empty, or rejected by the
TikTok pattern, the Resolver returns a 400 error with no data field and
issues no outbound fetch. -/
theorem C3_invalid_input (url? : Option String) (up : UpstreamHttp)
    (h : url? = none ∨ url? = some "" ∨
      ∃ u, url? = some u ∧ tiktokRegexTest u = false) :
    (POST url? up).1.status = 400 ∧ (POST url? up).1.hasData = false ∧
    (POST url? up).2 = false := by
  rcases h with rfl | rfl | ⟨u, rfl, hu⟩
  · exact ⟨rfl, rfl, rfl⟩
  · exact ⟨rfl, rfl, rfl⟩
  · by_cases he : u = ""
    · subst he
      exact ⟨rfl, rfl, rfl⟩
    · refine ⟨?_, ?_, ?_⟩ <;>
        simp [POST, he, hu, PostResponse.status, PostResponse.hasData]

/-- Witness for C3 at the specification example input `"not-a-url"`. -/
theorem C3_witness :
    (POST (some "not-a-url") ⟨true, ⟨0, "", none⟩⟩).1.status = 400 ∧
    (POST (some "not-a-url") ⟨true, ⟨0, "", none⟩⟩).1.hasData = false ∧
    (POST (some "not-a-url") ⟨true, ⟨0, "", none⟩⟩).2 = false :=
  C3_invalid_input (some "not-a-url") ⟨true, ⟨0, "", none⟩⟩
    (Or.inr (Or.inr ⟨"not-a-url", rfl, by decide⟩))

/-- C4: for every upstream result whose transport response is not ok, or
whose envelope code is nonzero, or whose data field is absent, the Resolver
returns the upstream-failure error with status 500 and no data field. -/
theorem C4_upstream_failure (url : String) (up : UpstreamHttp)
    (hurl : tiktokRegexTest url = true)
    (hfail : up.ok = false ∨ up.body.code ≠ 0 ∨ up.body.data = none) :
    POST (some url) up =
      (.jsonError 500
        "Erro ao obter informações do vídeo do TikTok. Verifique se o link está correto.",
        true) ∧
    (POST (some url) up).1.hasData = false := by
  have hne := regexTest_ne_empty hurl
  have he : POST (some url) up =
      (.jsonError 500
        "Erro ao obter informações do vídeo do TikTok. Verifique se o link está correto.",
        true) := by
    cases hok : up.ok with
    | false => simp [POST, hne, hurl, hok]
    | true =>
      by_cases hcode : up.body.code = 0
      · have hdata : up.body.data = none := by
          rcases hfail with h | h | h
          · rw [hok] at h
            exact Bool.noConfusion h
          · exact absurd hcode h
          · exact h
        simp [POST, hne, hurl, hok, hcode, hdata]
      · simp [POST, hne, hurl, hok, hcode]
  refine ⟨he, ?_⟩
  rw [he]
  rfl

/-- Witness for C4 with a nonzero upstream code. -/
theorem C4_witness :
    POST (some "https://vm.tiktok.com/ZMabc/") ⟨true, ⟨-1, "error", none⟩⟩ =
      (.jsonError 500
        "Erro ao obter informações do vídeo do TikTok. Verifique se o link está correto.",
        true) ∧
    (POST (some "https://vm.tiktok.com/ZMabc/") ⟨true, ⟨-1, "error", none⟩⟩).1.hasData
      = false :=
  C4_upstream_failure "https://vm.tiktok.com/ZMabc/" ⟨true, ⟨-1, "error", none⟩⟩
    (by decide) (Or.inr (Or.inl (by decide)))

/-- C5 counterexample: on a successful envelope whose nested author object is
absent, the Resolver does not return a success response with the author
field absent; reading `.nickname` of the undefined author throws, the catch
boundary converts it, and a 500 error response with no data is returned. -/
theorem C5_counterexample :
    (POST (some "https://www.tiktok.com/@demo/video/123")
        ⟨true, ⟨0, "success", some ⟨"123", "Funny Cat", "http://x/thumb.jpg", none,
          "http://x/wm.mp4", "http://x/nowm.mp4", "m"⟩⟩⟩).1 =
      .jsonErrorDetails 500 "Erro ao processar o vídeo" authorTypeErrorMsg ∧
    (POST (some "https://www.tiktok.com/@demo/video/123")
        ⟨true, ⟨0, "success", some ⟨"123", "Funny Cat", "http://x/thumb.jpg", none,
          "http://x/wm.mp4", "http://x/nowm.mp4", "m"⟩⟩⟩).1.isSuccess = false := by
  decide

/-- C5 (amended): for every successful envelope (code 0, data present) whose
nested author object is absent, the Resolver does not crash unhandled: the
thrown TypeError is caught at the handler boundary, and the handler returns
an internal-error response with status 500, no success flag and no data
field. -/
theorem C5_author_absent (url : String) (up : UpstreamHttp) (d : TikWMData)
    (hurl : tiktokRegexTest url = true) (hok : up.ok = true)
    (hcode : up.body.code = 0) (hdata : up.body.data = some d)
    (hauthor : d.author = none) :
    POST (some url) up =
      (.jsonErrorDetails 500 "Erro ao processar o vídeo" authorTypeErrorMsg, true) ∧
    (POST (some url) up).1.isSuccess = false ∧
    (POST (some url) up).1.hasData = false := by
  have hne := regexTest_ne_empty hurl
  have he : POST (some url) up =
      (.jsonErrorDetails 500 "Erro ao processar o vídeo" authorTypeErrorMsg, true) := by
    simp [POST, hne, hurl, hok, hcode, hdata, hauthor]
  refine ⟨he, ?_, ?_⟩ <;> (rw [he]; rfl)

/-- Witness for C5 (amended) at a concrete envelope without author. -/
theorem C5_witness :
    POST (some "https://vm.tiktok.com/xyz")
        ⟨true, ⟨0, "success", some ⟨"9", "t", "http://x/c.jpg", none,
          "http://x/p.mp4", "http://x/w.mp4", "m"⟩⟩⟩ =
      (.jsonErrorDetails 500 "Erro ao processar o vídeo" authorTypeErrorMsg, true) ∧
    (POST (some "https://vm.tiktok.com/xyz")
        ⟨true, ⟨0, "success", some ⟨"9", "t", "http://x/c.jpg", none,
          "http://x/p.mp4", "http://x/w.mp4", "m"⟩⟩⟩).1.isSuccess = false ∧
    (POST (some "https://vm.tiktok.com/xyz")
        ⟨true, ⟨0, "success", some ⟨"9", "t", "http://x/c.jpg", none,
          "http://x/p.mp4", "http://x/w.mp4", "m"⟩⟩⟩).1.hasData = false :=
  C5_author_absent "https://vm.tiktok.com/xyz"
    ⟨true, ⟨0, "success", some ⟨"9", "t", "http://x/c.jpg", none,
      "http://x/p.mp4", "http://x/w.mp4", "m"⟩⟩⟩
    ⟨"9", "t", "http://x/c.jpg", none, "http://x/p.mp4", "http://x/w.mp4", "m"⟩
    (by decide) rfl rfl rfl rfl

/-- C6 counterexample: the Relay does not sanitize the requested filename:
for the request filename `"my video.mp4"` the emitted Content-Disposition
carries it verbatim, which differs from its sanitized form. -/
theorem C6_counterexample :
    (GET (some "http://x/video.mp4") (some "my video.mp4")
        ⟨true, 200, [7, 8, 9]⟩).response =
      .video 200 [7, 8, 9]
        ⟨"video/mp4", "attachment; filename=\"my video.mp4\"", "3",
          "public, max-age=3600"⟩ ∧
    sanitizeFilename "my video.mp4" = "my_video_mp4" ∧
    "my video.mp4" ≠ "my_video_mp4" := by
  decide

/-- C6 (amended): for every successful relay of a media URL whose body is N
bytes, the Relay emits a 200 response whose Content-Type is the video MIME
type, whose Content-Length is the decimal representation of N, whose
Content-Disposition attachment filename is the requested filename verbatim
(sanitization happens on the client before the request, not in the Relay),
and whose cache lifetime is one hour. -/
theorem C6_relay_headers (u f : String) (up : MediaUpstream)
    (hu : u ≠ "") (hf : f ≠ "") (hok : up.ok = true) :
    GET (some u) (some f) up =
      ⟨.video 200 up.body
        ⟨"video/mp4", "attachment; filename=\"" ++ f ++ "\"",
          toString up.body.length, "public, max-age=3600"⟩,
        some u, none⟩ := by
  simp [GET, hu, hf, hok]

/-- Witness for C6 (amended) with a four-byte body. -/
theorem C6_witness :
    GET (some "http://x/video.mp4") (some "Funny_Cat.mp4")
        ⟨true, 200, [10, 20, 30, 40]⟩ =
      ⟨.video 200 [10, 20, 30, 40]
        ⟨"video/mp4", "attachment; filename=\"Funny_Cat.mp4\"", "4",
          "public, max-age=3600"⟩,
        some "http://x/video.mp4", none⟩ := by
  have h := C6_relay_headers "http://x/video.mp4" "Funny_Cat.mp4"
    ⟨true, 200, [10, 20, 30, 40]⟩ (by decide) (by decide) rfl
  rw [h]
  decide

/-- C7: for every GET request with a missing url query parameter, the Relay
returns a 400 error and performs no outbound fetch. -/
theorem C7_missing_url (fname? : Option String) (up : MediaUpstream) :
    GET none fname? up = ⟨.jsonError 400 "URL do vídeo é obrigatória", none, none⟩ :=
  rfl

/-- C8: for every relay fetch whose upstream transport response is not ok,
the Relay returns a 500 error and logs the upstream status code as the
diagnostic. -/
theorem C8_relay_upstream_failure (u : String) (fname? : Option String)
    (up : MediaUpstream) (hu : u ≠ "") (hok : up.ok = false) :
    GET (some u) fname? up =
      ⟨.jsonError 500 "Falha ao baixar o vídeo do servidor do TikTok",
        some u, some up.status⟩ := by
  simp [GET, hu, hok]

/-- Witness for C8 with a 403 upstream response. -/
theorem C8_witness :
    GET (some "http://x/video.mp4") none ⟨false, 403, []⟩ =
      ⟨.jsonError 500 "Falha ao baixar o vídeo do servidor do TikTok",
        some "http://x/video.mp4", some 403⟩ :=
  C8_relay_upstream_failure "http://x/video.mp4" none ⟨false, 403, []⟩ (by decide) rfl

/-- C9: for every successful upstream envelope whose title is the empty
string, the Resolver substitutes the fixed default title. -/
theorem C9_default_title (url : String) (up : UpstreamHttp) (d : TikWMData)
    (a : TikWMAuthor)
    (hurl : tiktokRegexTest url = true) (hok : up.ok = true)
    (hcode : up.body.code = 0) (hdata : up.body.data = some d)
    (hauthor : d.author = some a) (htitle : d.title = "") :
    (POST (some url) up).1.dataTitle = some "TikTok Video" := by
  have hne := regexTest_ne_empty hurl
  simp [POST, hne, hurl, hok, hcode, hdata, hauthor, htitle, PostResponse.dataTitle]

/-- Witness for C9 at an envelope with an empty title. -/
theorem C9_witness :
    (POST (some "https://www.tiktok.com/@demo/video/123")
        ⟨true, ⟨0, "success", some ⟨"123", "", "http://x/thumb.jpg",
          some ⟨"DemoUser", "demo"⟩, "http://x/wm.mp4", "http://x/nowm.mp4",
          "m"⟩⟩⟩).1.dataTitle = some "TikTok Video" :=
  C9_default_title "https://www.tiktok.com/@demo/video/123"
    ⟨true, ⟨0, "success", some ⟨"123", "", "http://x/thumb.jpg",
      some ⟨"DemoUser", "demo"⟩, "http://x/wm.mp4", "http://x/nowm.mp4", "m"⟩⟩⟩
    ⟨"123", "", "http://x/thumb.jpg", some ⟨"DemoUser", "demo"⟩,
      "http://x/wm.mp4", "http://x/nowm.mp4", "m"⟩
    ⟨"DemoUser", "demo"⟩
    (by decide) rfl rfl rfl rfl rfl

/-- C10: for every GET request whose url parameter is a nonempty string, the
Relay fetches exactly that string, with no TikTok-pattern, host or scheme
validation; and the filename defaults to the fixed name when the parameter
is absent or empty. -/
theorem C10_relay_no_validation (u : String) (fname? : Option String)
    (up : MediaUpstream) (hu : u ≠ "") :
    (GET (some u) fname? up).fetched = some u ∧
    ((fname? = none ∨ fname? = some "") → up.ok = true →
      (GET (some u) fname? up).response =
        .video 200 up.body
          ⟨"video/mp4", "attachment; filename=\"tiktok_video.mp4\"",
            toString up.body.length, "public, max-age=3600"⟩) := by
  constructor
  · cases hok : up.ok with
    | false => simp [GET, hu, hok]
    | true => simp [GET, hu, hok]
  · rintro (rfl | rfl) hok
    · simp [GET, hu, hok]
    · simp [GET, hu, hok]

/-- Witness for C10 at a URL that is not a TikTok URL at all. -/
theorem C10_witness :
    tiktokRegexTest "https://evil.example/video" = false ∧
    (GET (some "https://evil.example/video") none ⟨true, 200, [1, 2, 3]⟩).fetched =
      some "https://evil.example/video" ∧
    (GET (some "https://evil.example/video") none ⟨true, 200, [1, 2, 3]⟩).response =
      .video 200 [1, 2, 3]
        ⟨"video/mp4", "attachment; filename=\"tiktok_video.mp4\"", "3",
          "public, max-age=3600"⟩ := by
  have h := C10_relay_no_validation "https://evil.example/video" none
    ⟨true, 200, [1, 2, 3]⟩ (by decide)
  refine ⟨by decide, h.1, ?_⟩
  have h2 := h.2 (Or.inl rfl) rfl
  rw [h2]
  decide

end TikTokDL
